import Mathlib

/-!
Shallow embedding of `src/main.rs` of `everything-mcp-rs`: an MCP/CLI front
end over the Everything search engine's native DLL.  Pure string-building
code is translated directly; the FFI executor (`search`) is modelled as a
function of an explicit engine-behaviour oracle that also records the
sequence of native calls it makes.
-/

namespace EvMcp

/-! ### Rust standard-library string operations used by the source -/

/-- ASCII fragment of Rust's `char::is_whitespace` (the source only ever
trims ASCII input; Unicode space characters are not modelled). -/
def rustIsWhitespace (c : Char) : Bool :=
  c = ' ' || c = '\t' || c = '\n' || c = '\r' || c = '\x0b' || c = '\x0c'

/-- `str::trim` on a character list: drop whitespace from both ends. -/
def trimChars (l : List Char) : List Char :=
  ((l.dropWhile rustIsWhitespace).reverse.dropWhile rustIsWhitespace).reverse

/-- Rust `str::trim`. -/
def rustTrim (s : String) : String := String.mk (trimChars s.toList)

/-- Rust `str::trim_start_matches(c)` with a char pattern: strip every
leading occurrence of `c`. -/
def trimStartMatchesChar (c : Char) (s : String) : String :=
  String.mk (s.toList.dropWhile (fun x => x = c))

/-- Rust `str::split(',')` on a character list.  Splitting the empty list
yields one empty piece, as in Rust. -/
def splitCommaChars : List Char → List (List Char)
  | [] => [[]]
  | c :: cs =>
    if c = ',' then [] :: splitCommaChars cs
    else
      match splitCommaChars cs with
      | [] => [[c]]
      | g :: gs => (c :: g) :: gs

/-- Rust `str::split(',').collect::<Vec<_>>()`. -/
def rustSplitComma (s : String) : List String :=
  (splitCommaChars s.toList).map String.mk

/-- Rust `Vec::<String>::join(sep)`. -/
def joinSep (sep : String) : List String → String
  | [] => ""
  | [x] => x
  | x :: y :: xs => x ++ sep ++ joinSep sep (y :: xs)

/-- ASCII fragment of Rust `char::to_lowercase` (the match targets in the
source are ASCII, so only the A–Z range matters). -/
def asciiToLower (c : Char) : Char :=
  if 65 ≤ c.toNat ∧ c.toNat ≤ 90 then Char.ofNat (c.toNat + 32) else c

/-- Rust `str::to_lowercase`, restricted to its ASCII action. -/
def rustToLowercase (s : String) : String :=
  String.mk (s.toList.map asciiToLower)

/-- Rust `str::replace(',', ";")` with a char pattern. -/
def replaceCommaSemicolon (s : String) : String :=
  String.mk (s.toList.map (fun c => if c = ',' then ';' else c))

/-- Rust `Option::<String>::filter(|k| !k.is_empty())`. -/
def filterNonEmpty : Option String → Option String
  | some k => if k = "" then none else some k
  | none => none

/-- Rust `u32::clamp(1, 500)` as applied to the requested result cap at
`main.rs:89` (`(dll.set_max)(max.clamp(1, 500))`). -/
def clampMax (max : Nat) : Nat :=
  if max < 1 then 1 else if max > 500 then 500 else max

/-! ### Query builders (`main.rs`, one per tool) -/

/-- The `ext:` OR-list built by `everything_search_ext` (`main.rs:180`) and
by the CLI `Ext` branch (`main.rs:437`):
`extensions.split(',').map(|e| format!("ext:{}", e.trim().trim_start_matches('.'))).collect::<Vec<_>>().join(" | ")`. -/
def extQuery (extensions : String) : String :=
  joinSep " | "
    ((rustSplitComma extensions).map
      (fun e => "ext:" ++ trimStartMatchesChar '.' (rustTrim e)))

/-- Query built by `everything_search_ext` (`main.rs:180-181`): the `ext:`
OR-list, parenthesized and suffixed with the keywords when those are
present and non-empty. -/
def everything_search_ext_query (extensions : String) (keywords : Option String) : String :=
  let eq := extQuery extensions
  match filterNonEmpty keywords with
  | some k => "(" ++ eq ++ ") " ++ k
  | none => eq

/-- Keyword suffixing shared by the category tools (`main.rs:186-231`,
`everything_search_audio` etc.): `if let Some(k) = keywords.filter(..) { q.push_str(&format!(" {}", k)) }`. -/
def pushKeyword (q : String) (keywords : Option String) : String :=
  match filterNonEmpty keywords with
  | some k => q ++ " " ++ k
  | none => q

/-- Query built by `everything_search_audio` (`main.rs:187-188`). -/
def everything_search_audio_query (keywords : Option String) : String :=
  pushKeyword "ext:mp3;wav;flac;aac;ogg;wma;m4a" keywords

/-- Query built by `everything_search_or` (`main.rs:326-327`): terms split
on commas, trimmed, joined with `" | "`, then AND-combined with the filter
by parenthesizing the OR set. -/
def everything_search_or_query (terms : String) (and_filter : Option String) : String :=
  let oq := joinSep " | " ((rustSplitComma terms).map rustTrim)
  match filterNonEmpty and_filter with
  | some f => "(" ++ oq ++ ") " ++ f
  | none => oq

/-- Query built by `everything_search_large` (`main.rs:274-282`). -/
def everything_search_large_query (min_size : Option String) (file_type : Option String) : String :=
  let q := "size:>" ++ min_size.getD "100mb"
  match file_type with
  | some ft =>
    q ++ (if rustToLowercase ft = "video" then " ext:mp4;avi;mkv;mov"
          else if rustToLowercase ft = "audio" then " ext:mp3;wav;flac"
          else if rustToLowercase ft = "archive" then " ext:zip;rar;7z;iso"
          else "")
  | none => q

/-! ### Executor model (`search`, `main.rs:82-113`)

The native DLL is modelled by an oracle `EngineBehavior` giving the
outcome of the one query the call performs, and `search` additionally
records the sequence of native entry points it invokes, so that theorems
can speak about the arguments passed across the FFI boundary.  The
poisoned-lock branch (`main.rs:83`) is concurrency and is not modelled;
the exact `Display` text of the `widestring` nul error (`main.rs:87`) is
abbreviated, as no behaviour depends on it. -/

/-- Outcome of the single native query a `search` call performs, plus the
row data the DLL would hand back. -/
structure EngineBehavior where
  queryOk : Bool
  lastError : Nat
  numResults : Nat
  totResults : Nat
  resultPath : Nat → String
  resultAttr : Nat → Nat

/-- One invocation of a native entry point, with the argument passed. -/
inductive NativeCall where
  | setSearch (q : String)
  | setMax (n : Nat)
  | setCase (b : Bool)
  | setWord (b : Bool)
  | setRegex (b : Bool)
  | setPath (b : Bool)
  | setFlags (n : Nat)
  | runQuery
  | getNum
  | getTot
  | getPath (i : Nat)
  | getAttr (i : Nat)
  | getErr
  deriving DecidableEq, Repr

/-- `U16CString::from_str` fails exactly when the text contains an interior
nul (`main.rs:87`). -/
def containsNul (s : String) : Bool :=
  s.toList.any (fun c => c.toNat = 0)

/-- The configuration sequence of `main.rs:88-96`: search text, clamped
cap, the four boolean modes, the fixed request flags `0x113`, then the
query call itself. -/
def configCalls (q : String) (max : Nat) (case word regex path : Bool) : List NativeCall :=
  [NativeCall.setSearch q, NativeCall.setMax (clampMax max),
   NativeCall.setCase case, NativeCall.setWord word, NativeCall.setRegex regex,
   NativeCall.setPath path, NativeCall.setFlags 0x113, NativeCall.runQuery]

/-- The per-row reads of `main.rs:104-108`. -/
def readCalls (n : Nat) : List NativeCall :=
  ((List.range n).map (fun i => [NativeCall.getPath i, NativeCall.getAttr i])).flatten

/-- Decoding of the fixed wide buffer of `main.rs:105-107`: the text up to
the first nul terminator (UTF-16 lossy decoding is modelled as identity on
already-valid text). -/
def decodePath (s : String) : String :=
  String.mk (s.toList.takeWhile (fun c => c.toNat ≠ 0))

/-- One output row of `main.rs:108-109`: `[DIR]`/`[FILE]` marker from
attribute bit `0x10`, then the decoded path. -/
def formatRow (eng : EngineBehavior) (i : Nat) : String :=
  (if eng.resultAttr i &&& 0x10 ≠ 0 then "[DIR]" else "[FILE]")
    ++ " " ++ decodePath (eng.resultPath i) ++ "\n"

/-- All rows, in index order (`main.rs:104-110`). -/
def formatRows (eng : EngineBehavior) (n : Nat) : String :=
  String.join ((List.range n).map (formatRow eng))

/-- `search` (`main.rs:82-113`): the native-call trace together with the
text returned to the caller, as a function of the (possibly absent) DLL
handle's behaviour. -/
def search (dll : Option EngineBehavior) (q : String) (max : Nat)
    (case word regex path : Bool) : List NativeCall × String :=
  match dll with
  | none => ([], "DLL not loaded")
  | some eng =>
    if containsNul q then ([], "Query: nul value found")
    else
      let cfg := configCalls q max case word regex path
      if eng.queryOk = false then
        (cfg ++ [NativeCall.getErr],
         "Query failed (" ++ toString eng.lastError ++ "). Is Everything running?")
      else if eng.numResults = 0 then
        (cfg ++ [NativeCall.getNum], "No results for: " ++ q)
      else
        (cfg ++ [NativeCall.getNum, NativeCall.getTot] ++ readCalls eng.numResults,
         "Found " ++ toString eng.totResults ++ " (showing "
           ++ toString eng.numResults ++ "):\n\n" ++ formatRows eng eng.numResults)

/-! ### Tool handlers (`main.rs:116-147` request structs, `main.rs:153-330`
handlers)

Each MCP handler builds a query string and calls
`search(&q, max, case, word, regex, path)`; the handlers are modelled as
functions from the deserialized request to that argument tuple.  `u32`
fields become `Nat` (no arithmetic overflows them in the source). -/

/-- The arguments a handler passes to `search`. -/
structure SearchArgs where
  q : String
  max : Nat
  matchCase : Bool
  wholeWord : Bool
  matchRegex : Bool
  matchPath : Bool
  deriving DecidableEq, Repr

structure SearchReq where
  query : String
  max_results : Option Nat
  match_case : Option Bool
  whole_word : Option Bool
  regex : Option Bool
  match_path : Option Bool

structure ExtReq where
  extensions : String
  keywords : Option String
  max_results : Option Nat

structure KeyReq where
  keywords : Option String
  max_results : Option Nat

structure FolderReq where
  folder_path : String
  query : String
  max_results : Option Nat

structure RecentReq where
  days : Option Nat
  extension : Option String
  max_results : Option Nat

structure DateReq where
  date_filter : String
  keywords : Option String
  max_results : Option Nat

structure SizeReq where
  size_filter : String
  keywords : Option String
  max_results : Option Nat

structure LargeReq where
  min_size : Option String
  file_type : Option String
  max_results : Option Nat

structure ContentReq where
  content : String
  extensions : Option String
  folder : Option String
  max_results : Option Nat

structure RegexReq where
  pattern : String
  max_results : Option Nat

structure DupeReq where
  pattern : String
  max_results : Option Nat

structure ExcludeReq where
  query : String
  exclude : String
  max_results : Option Nat

structure OrReq where
  terms : String
  and_filter : Option String
  max_results : Option Nat

structure FoldersReq where
  query : String
  max_results : Option Nat

/-- `everything_search` (`main.rs:158-160`). -/
def everything_search (p : SearchReq) : SearchArgs :=
  { q := p.query, max := p.max_results.getD 50,
    matchCase := p.match_case.getD false, wholeWord := p.whole_word.getD false,
    matchRegex := p.regex.getD false, matchPath := p.match_path.getD false }

/-- `everything_search_ext` (`main.rs:179-183`). -/
def everything_search_ext (p : ExtReq) : SearchArgs :=
  { q := everything_search_ext_query p.extensions p.keywords,
    max := p.max_results.getD 50, matchCase := false, wholeWord := false,
    matchRegex := false, matchPath := false }

/-- Shared shape of the fixed-category handlers
(`main.rs:186-231`): hardcoded `ext:` list plus optional keyword. -/
def categoryArgs (base : String) (p : KeyReq) : SearchArgs :=
  { q := pushKeyword base p.keywords, max := p.max_results.getD 50,
    matchCase := false, wholeWord := false, matchRegex := false, matchPath := false }

/-- `everything_search_audio` (`main.rs:186-189`). -/
def everything_search_audio (p : KeyReq) : SearchArgs :=
  categoryArgs "ext:mp3;wav;flac;aac;ogg;wma;m4a" p

/-- `everything_search_video` (`main.rs:193-196`). -/
def everything_search_video (p : KeyReq) : SearchArgs :=
  categoryArgs "ext:mp4;avi;mkv;mov;wmv;flv;webm" p

/-- `everything_search_image` (`main.rs:200-203`). -/
def everything_search_image (p : KeyReq) : SearchArgs :=
  categoryArgs "ext:jpg;jpeg;png;gif;bmp;svg;webp;ico" p

/-- `everything_search_doc` (`main.rs:207-210`). -/
def everything_search_doc (p : KeyReq) : SearchArgs :=
  categoryArgs "ext:pdf;doc;docx;xls;xlsx;ppt;pptx;txt;md" p

/-- `everything_search_code` (`main.rs:214-217`). -/
def everything_search_code (p : KeyReq) : SearchArgs :=
  categoryArgs "ext:cs;py;js;ts;java;cpp;c;h;go;rs;rb;php;ps1" p

/-- `everything_search_archive` (`main.rs:221-224`). -/
def everything_search_archive (p : KeyReq) : SearchArgs :=
  categoryArgs "ext:zip;rar;7z;tar;gz;bz2;iso" p

/-- `everything_search_exe` (`main.rs:228-231`). -/
def everything_search_exe (p : KeyReq) : SearchArgs :=
  categoryArgs "ext:exe;msi;bat;cmd;ps1;sh" p

/-- `everything_search_in_folder` (`main.rs:235-237`). -/
def everything_search_in_folder (p : FolderReq) : SearchArgs :=
  { q := "\"" ++ p.folder_path ++ "\\\" " ++ p.query, max := p.max_results.getD 50,
    matchCase := false, wholeWord := false, matchRegex := false, matchPath := false }

/-- `everything_search_folders` (`main.rs:240-242`). -/
def everything_search_folders (p : FoldersReq) : SearchArgs :=
  { q := "folder: " ++ p.query, max := p.max_results.getD 50,
    matchCase := false, wholeWord := false, matchRegex := false, matchPath := false }

/-- `everything_recent` (`main.rs:245-249`). -/
def everything_recent (p : RecentReq) : SearchArgs :=
  { q := (let q0 := "dm:last" ++ toString (p.days.getD 1) ++ "days"
          match filterNonEmpty p.extension with
          | some e => q0 ++ " ext:" ++ trimStartMatchesChar '.' e
          | none => q0),
    max := p.max_results.getD 50, matchCase := false, wholeWord := false,
    matchRegex := false, matchPath := false }

/-- `everything_search_date_created` (`main.rs:252-256`). -/
def everything_search_date_created (p : DateReq) : SearchArgs :=
  { q := pushKeyword ("dc:" ++ p.date_filter) p.keywords, max := p.max_results.getD 50,
    matchCase := false, wholeWord := false, matchRegex := false, matchPath := false }

/-- `everything_search_date_modified` (`main.rs:259-263`). -/
def everything_search_date_modified (p : DateReq) : SearchArgs :=
  { q := pushKeyword ("dm:" ++ p.date_filter) p.keywords, max := p.max_results.getD 50,
    matchCase := false, wholeWord := false, matchRegex := false, matchPath := false }

/-- `everything_search_size` (`main.rs:266-270`). -/
def everything_search_size (p : SizeReq) : SearchArgs :=
  { q := pushKeyword ("size:" ++ p.size_filter) p.keywords, max := p.max_results.getD 50,
    matchCase := false, wholeWord := false, matchRegex := false, matchPath := false }

/-- `everything_search_large` (`main.rs:273-284`). -/
def everything_search_large (p : LargeReq) : SearchArgs :=
  { q := everything_search_large_query p.min_size p.file_type,
    max := p.max_results.getD 50, matchCase := false, wholeWord := false,
    matchRegex := false, matchPath := false }

/-- `everything_search_empty` (`main.rs:287-290`). -/
def everything_search_empty (p : KeyReq) : SearchArgs :=
  { q := (match filterNonEmpty p.keywords with
          | some k => "empty: " ++ k
          | none => "empty:"),
    max := p.max_results.getD 50, matchCase := false, wholeWord := false,
    matchRegex := false, matchPath := false }

/-- `everything_search_hidden` (`main.rs:293-297`). -/
def everything_search_hidden (p : KeyReq) : SearchArgs :=
  { q := pushKeyword "attrib:H" p.keywords, max := p.max_results.getD 50,
    matchCase := false, wholeWord := false, matchRegex := false, matchPath := false }

/-- `everything_search_content` (`main.rs:300-306`). -/
def everything_search_content (p : ContentReq) : SearchArgs :=
  { q := (match filterNonEmpty p.folder with
          | some f => "\"" ++ f ++ "\\\" "
          | none => "")
        ++ (match filterNonEmpty p.extensions with
            | some e => "ext:" ++ replaceCommaSemicolon e ++ " "
            | none => "")
        ++ "content:\"" ++ p.content ++ "\"",
    max := p.max_results.getD 20, matchCase := false, wholeWord := false,
    matchRegex := false, matchPath := false }

/-- `everything_search_regex` (`main.rs:309-311`). -/
def everything_search_regex (p : RegexReq) : SearchArgs :=
  { q := p.pattern, max := p.max_results.getD 50, matchCase := false,
    wholeWord := false, matchRegex := true, matchPath := false }

/-- `everything_find_duplicates` (`main.rs:314-316`). -/
def everything_find_duplicates (p : DupeReq) : SearchArgs :=
  { q := "dupe: " ++ p.pattern, max := p.max_results.getD 100,
    matchCase := false, wholeWord := false, matchRegex := false, matchPath := false }

/-- `everything_search_exclude` (`main.rs:319-322`). -/
def everything_search_exclude (p : ExcludeReq) : SearchArgs :=
  { q := p.query ++ " "
        ++ joinSep " " ((rustSplitComma p.exclude).map (fun s => "!" ++ rustTrim s)),
    max := p.max_results.getD 50, matchCase := false, wholeWord := false,
    matchRegex := false, matchPath := false }

/-- `everything_search_or` (`main.rs:325-329`). -/
def everything_search_or (p : OrReq) : SearchArgs :=
  { q := everything_search_or_query p.terms p.and_filter,
    max := p.max_results.getD 50, matchCase := false, wholeWord := false,
    matchRegex := false, matchPath := false }

/-- Running a handler's `search` invocation against the shared handle. -/
def runTool (dll : Option EngineBehavior) (a : SearchArgs) : List NativeCall × String :=
  search dll a.q a.max a.matchCase a.wholeWord a.matchRegex a.matchPath

/-! ### Native handle loader (`EvDll::load`, `main.rs:46-78`) -/

/-- A successfully opened dynamic library: its exported symbol table. -/
structure NativeLib where
  sym : String → Option Nat

/-- The dynamic-loading environment: what `Library::new` returns for each
requested path. -/
structure LoadEnv where
  openLib : String → Except String NativeLib

/-- The resolved handle (`struct EvDll`, `main.rs:28-44`): one resolved
address per required entry point. -/
structure EvDll where
  set_search : Nat
  set_max : Nat
  set_case : Nat
  set_word : Nat
  set_regex : Nat
  set_path : Nat
  set_flags : Nat
  query : Nat
  get_num : Nat
  get_tot : Nat
  get_path : Nat
  get_attr : Nat
  get_err : Nat
  is_loaded : Nat
  get_ver : Nat × Nat × Nat × Nat
  deriving DecidableEq, Repr

/-- `lib.get(name).map_err(..)` (`main.rs:55-73`): look one exported name
up, failing with a descriptive error when it is absent. -/
def getSym (lib : NativeLib) (name : String) : Except String Nat :=
  match lib.sym name with
  | some a => Except.ok a
  | none => Except.error ("symbol not found: " ++ name)

/-- The names resolved by `EvDll::load` (`main.rs:55-74`). -/
def requiredSymbols : List String :=
  ["Everything_SetSearchW", "Everything_SetMax", "Everything_SetMatchCase",
   "Everything_SetMatchWholeWord", "Everything_SetRegex", "Everything_SetMatchPath",
   "Everything_SetRequestFlags", "Everything_QueryW", "Everything_GetNumResults",
   "Everything_GetTotResults", "Everything_GetResultFullPathNameW",
   "Everything_GetResultAttributes", "Everything_GetLastError",
   "Everything_IsDBLoaded", "Everything_GetMajorVersion",
   "Everything_GetMinorVersion", "Everything_GetRevision",
   "Everything_GetBuildNumber"]

/-- Resolution of every entry point from one opened library
(`main.rs:54-75`): each `lib.get(..)?` in source order, any failure
aborting the whole construction. -/
def resolveAll (lib : NativeLib) : Except String EvDll := do
  let set_search ← getSym lib "Everything_SetSearchW"
  let set_max ← getSym lib "Everything_SetMax"
  let set_case ← getSym lib "Everything_SetMatchCase"
  let set_word ← getSym lib "Everything_SetMatchWholeWord"
  let set_regex ← getSym lib "Everything_SetRegex"
  let set_path ← getSym lib "Everything_SetMatchPath"
  let set_flags ← getSym lib "Everything_SetRequestFlags"
  let query ← getSym lib "Everything_QueryW"
  let get_num ← getSym lib "Everything_GetNumResults"
  let get_tot ← getSym lib "Everything_GetTotResults"
  let get_path ← getSym lib "Everything_GetResultFullPathNameW"
  let get_attr ← getSym lib "Everything_GetResultAttributes"
  let get_err ← getSym lib "Everything_GetLastError"
  let is_loaded ← getSym lib "Everything_IsDBLoaded"
  let v0 ← getSym lib "Everything_GetMajorVersion"
  let v1 ← getSym lib "Everything_GetMinorVersion"
  let v2 ← getSym lib "Everything_GetRevision"
  let v3 ← getSym lib "Everything_GetBuildNumber"
  return { set_search, set_max, set_case, set_word, set_regex, set_path,
           set_flags, query, get_num, get_tot, get_path, get_attr, get_err,
           is_loaded, get_ver := (v0, v1, v2, v3) }

/-- `Result::or_else` (`main.rs:49-50`). -/
def orElseLib (r : Except String NativeLib) (f : Unit → Except String NativeLib) :
    Except String NativeLib :=
  match r with
  | Except.ok l => Except.ok l
  | Except.error _ => f ()

/-- `EvDll::load` (`main.rs:47-77`): try the default search path, then the
fixed install path, and resolve every entry point from the first library
that opened. -/
def EvDll.load (env : LoadEnv) : Except String EvDll :=
  match orElseLib (env.openLib "Everything64.dll")
      (fun _ => env.openLib "C:\\Program Files\\Everything\\Everything64.dll") with
  | Except.error e => Except.error e
  | Except.ok lib => resolveAll lib

/-! ### Concrete instances used by witnesses -/

/-- An engine behaviour whose query succeeds with zero matches. -/
def emptyEngine : EngineBehavior :=
  { queryOk := true, lastError := 0, numResults := 0, totResults := 0,
    resultPath := fun _ => "", resultAttr := fun _ => 0 }

/-- A library exporting every name. -/
def fullLib : NativeLib := ⟨fun _ => some 0⟩

/-- A library missing the query entry point. -/
def missingLib : NativeLib :=
  ⟨fun n => if n = "Everything_QueryW" then none else some 0⟩

/-- An environment whose default search path succeeds. -/
def goodEnv : LoadEnv := ⟨fun _ => Except.ok fullLib⟩

/-- An environment whose default search path fails but whose fallback
install path succeeds. -/
def fallbackEnv : LoadEnv :=
  ⟨fun p => if p = "Everything64.dll" then Except.error "not found"
            else Except.ok fullLib⟩

/-- A handle with every address zero. -/
def zeroDll : EvDll :=
  { set_search := 0, set_max := 0, set_case := 0, set_word := 0, set_regex := 0,
    set_path := 0, set_flags := 0, query := 0, get_num := 0, get_tot := 0,
    get_path := 0, get_attr := 0, get_err := 0, is_loaded := 0,
    get_ver := (0, 0, 0, 0) }

/-! ### Helper lemmas -/

theorem toList_append (a b : String) : (a ++ b).toList = a.toList ++ b.toList := by
  cases a
  cases b
  rfl

theorem mk_toList (s : String) : String.mk s.toList = s := rfl

theorem splitCommaChars_ne_nil (l : List Char) : splitCommaChars l ≠ [] := by
  induction l with
  | nil => simp [splitCommaChars]
  | cons c cs ih =>
    rw [splitCommaChars]
    split
    · simp
    · cases h : splitCommaChars cs with
      | nil => exact absurd h ih
      | cons g gs => simp [h]

theorem splitCommaChars_no_comma (l : List Char) (h : ',' ∉ l) :
    splitCommaChars l = [l] := by
  induction l with
  | nil => rfl
  | cons c cs ih =>
    have hc : ¬c = ',' := fun hx => h (hx ▸ List.mem_cons_self c cs)
    have hcs : ',' ∉ cs := fun hx => h (List.mem_cons_of_mem c hx)
    rw [splitCommaChars, if_neg hc, ih hcs]

theorem splitCommaChars_append (a b : List Char) (h : ',' ∉ a) :
    splitCommaChars (a ++ ',' :: b) = a :: splitCommaChars b := by
  induction a with
  | nil => simp [splitCommaChars]
  | cons c cs ih =>
    have hc : ¬c = ',' := fun hx => h (hx ▸ List.mem_cons_self c cs)
    have hcs : ',' ∉ cs := fun hx => h (List.mem_cons_of_mem c hx)
    rw [List.cons_append, splitCommaChars, if_neg hc, ih hcs]

theorem rustSplitComma_single (e : String) (h : ',' ∉ e.toList) :
    rustSplitComma e = [e] := by
  rw [rustSplitComma, splitCommaChars_no_comma e.toList h]
  simp [mk_toList]

theorem rustSplitComma_cons (e rest : String) (h : ',' ∉ e.toList) :
    rustSplitComma (e ++ "," ++ rest) = e :: rustSplitComma rest := by
  have hl : (e ++ "," ++ rest).toList = e.toList ++ ',' :: rest.toList := by
    rw [toList_append, toList_append]
    simp
  rw [rustSplitComma, hl, splitCommaChars_append e.toList rest.toList h]
  simp [mk_toList, rustSplitComma]

theorem joinSep_cons (sep x : String) (l : List String) (h : l ≠ []) :
    joinSep sep (x :: l) = x ++ sep ++ joinSep sep l := by
  cases l with
  | nil => exact absurd rfl h
  | cons y t => rfl

theorem rustSplitComma_ne_nil (s : String) : rustSplitComma s ≠ [] := by
  rw [rustSplitComma]
  simp [splitCommaChars_ne_nil]

theorem getSym_bind_ok {lib : NativeLib} {n : String} {f : Nat → Except String EvDll}
    {h : EvDll} (H : (getSym lib n >>= f) = Except.ok h) :
    ∃ a, lib.sym n = some a ∧ f a = Except.ok h := by
  cases hs : lib.sym n with
  | none =>
    rw [getSym, hs] at H
    simp [Bind.bind, Except.bind] at H
  | some a =>
    rw [getSym, hs] at H
    simp only [Bind.bind, Except.bind] at H
    exact ⟨a, rfl, H⟩

theorem resolveAll_ok_sym (lib : NativeLib) (h : EvDll)
    (H : resolveAll lib = Except.ok h) :
    ∀ name ∈ requiredSymbols, (lib.sym name).isSome := by
  rw [resolveAll] at H
  obtain ⟨a1, s1, H⟩ := getSym_bind_ok H
  obtain ⟨a2, s2, H⟩ := getSym_bind_ok H
  obtain ⟨a3, s3, H⟩ := getSym_bind_ok H
  obtain ⟨a4, s4, H⟩ := getSym_bind_ok H
  obtain ⟨a5, s5, H⟩ := getSym_bind_ok H
  obtain ⟨a6, s6, H⟩ := getSym_bind_ok H
  obtain ⟨a7, s7, H⟩ := getSym_bind_ok H
  obtain ⟨a8, s8, H⟩ := getSym_bind_ok H
  obtain ⟨a9, s9, H⟩ := getSym_bind_ok H
  obtain ⟨a10, s10, H⟩ := getSym_bind_ok H
  obtain ⟨a11, s11, H⟩ := getSym_bind_ok H
  obtain ⟨a12, s12, H⟩ := getSym_bind_ok H
  obtain ⟨a13, s13, H⟩ := getSym_bind_ok H
  obtain ⟨a14, s14, H⟩ := getSym_bind_ok H
  obtain ⟨a15, s15, H⟩ := getSym_bind_ok H
  obtain ⟨a16, s16, H⟩ := getSym_bind_ok H
  obtain ⟨a17, s17, H⟩ := getSym_bind_ok H
  obtain ⟨a18, s18, H⟩ := getSym_bind_ok H
  intro name hn
  simp only [requiredSymbols, List.mem_cons, List.not_mem_nil, or_false] at hn
  rcases hn with rfl | rfl | rfl | rfl | rfl | rfl | rfl | rfl | rfl | rfl | rfl
    | rfl | rfl | rfl | rfl | rfl | rfl | rfl <;>
    simp [s1, s2, s3, s4, s5, s6, s7, s8, s9, s10, s11, s12, s13, s14, s15,
      s16, s17, s18]

/-! ### Claims -/

/-- Claim C1: on every search execution that reaches the native
configuration calls, the cap passed to `Everything_SetMax` is the
requested value clamped into `[1, 500]`: a request of `0` is raised to
`1`, any request above `500` is lowered to `500`, and in-range requests
pass through unchanged. -/
theorem cap_clamped_into_range (eng : EngineBehavior) (q : String) (max : Nat)
    (case word regex path : Bool) (hq : containsNul q = false) :
    NativeCall.setMax (clampMax max) ∈ (search (some eng) q max case word regex path).1
    ∧ 1 ≤ clampMax max ∧ clampMax max ≤ 500
    ∧ (max = 0 → clampMax max = 1)
    ∧ (500 < max → clampMax max = 500)
    ∧ (1 ≤ max → max ≤ 500 → clampMax max = max) := by
  refine ⟨?_, ?_, ?_, ?_, ?_, ?_⟩
  · rw [search]
    simp only [hq, Bool.false_eq_true, if_false]
    split
    · simp [configCalls]
    · split
      · simp [configCalls]
      · simp [configCalls]
  · rw [clampMax]; split_ifs <;> omega
  · rw [clampMax]; split_ifs <;> omega
  · intro h; subst h; rfl
  · intro h; rw [clampMax]; split_ifs <;> omega
  · intro h1 h2; rw [clampMax]; split_ifs <;> omega

theorem cap_clamped_into_range_witness :
    NativeCall.setMax (clampMax 0) ∈ (search (some emptyEngine) "docs" 0 false false false false).1
    ∧ 1 ≤ clampMax 0 ∧ clampMax 0 ≤ 500
    ∧ (0 = 0 → clampMax 0 = 1)
    ∧ (500 < 0 → clampMax 0 = 500)
    ∧ (1 ≤ 0 → 0 ≤ 500 → clampMax 0 = 0) :=
  cap_clamped_into_range emptyEngine "docs" 0 false false false false (by decide)

/-- Claim C3 (counterexample): the content-search handler defaults an
absent result cap to 20, and the duplicate-search handler to 100, not
50. -/
theorem content_default_cap_not_50 :
    (everything_search_content
      { content := "TODO", extensions := none, folder := none, max_results := none }).max = 20
    ∧ (everything_find_duplicates { pattern := "report", max_results := none }).max = 100
    ∧ (20 : Nat) ≠ 50 ∧ (100 : Nat) ≠ 50 :=
  ⟨rfl, rfl, by decide, by decide⟩

/-- Claim C3 (amended): every handler defaults an absent result cap to 50,
except content search, which defaults to 20, and duplicate search, which
defaults to 100. -/
theorem default_caps_per_tool :
    (∀ p : SearchReq, (everything_search { p with max_results := none }).max = 50)
    ∧ (∀ p : ExtReq, (everything_search_ext { p with max_results := none }).max = 50)
    ∧ (∀ p : KeyReq,
        (everything_search_audio { p with max_results := none }).max = 50
        ∧ (everything_search_video { p with max_results := none }).max = 50
        ∧ (everything_search_image { p with max_results := none }).max = 50
        ∧ (everything_search_doc { p with max_results := none }).max = 50
        ∧ (everything_search_code { p with max_results := none }).max = 50
        ∧ (everything_search_archive { p with max_results := none }).max = 50
        ∧ (everything_search_exe { p with max_results := none }).max = 50
        ∧ (everything_search_empty { p with max_results := none }).max = 50
        ∧ (everything_search_hidden { p with max_results := none }).max = 50)
    ∧ (∀ p : FolderReq, (everything_search_in_folder { p with max_results := none }).max = 50)
    ∧ (∀ p : FoldersReq, (everything_search_folders { p with max_results := none }).max = 50)
    ∧ (∀ p : RecentReq, (everything_recent { p with max_results := none }).max = 50)
    ∧ (∀ p : DateReq,
        (everything_search_date_created { p with max_results := none }).max = 50
        ∧ (everything_search_date_modified { p with max_results := none }).max = 50)
    ∧ (∀ p : SizeReq, (everything_search_size { p with max_results := none }).max = 50)
    ∧ (∀ p : LargeReq, (everything_search_large { p with max_results := none }).max = 50)
    ∧ (∀ p : RegexReq, (everything_search_regex { p with max_results := none }).max = 50)
    ∧ (∀ p : OrReq, (everything_search_or { p with max_results := none }).max = 50)
    ∧ (∀ p : ExcludeReq, (everything_search_exclude { p with max_results := none }).max = 50)
    ∧ (∀ p : ContentReq, (everything_search_content { p with max_results := none }).max = 20)
    ∧ (∀ p : DupeReq, (everything_find_duplicates { p with max_results := none }).max = 100) :=
  ⟨fun _ => rfl, fun _ => rfl,
   fun _ => ⟨rfl, rfl, rfl, rfl, rfl, rfl, rfl, rfl, rfl⟩,
   fun _ => rfl, fun _ => rfl, fun _ => rfl, fun _ => ⟨rfl, rfl⟩,
   fun _ => rfl, fun _ => rfl, fun _ => rfl, fun _ => rfl, fun _ => rfl,
   fun _ => rfl, fun _ => rfl⟩

/-- Claim C4: with the native handle absent (load failed), every search
operation returns the engine-unavailable text `"DLL not loaded"`
immediately — no native call is made and no error is raised. -/
theorem engine_unavailable_text (a : SearchArgs) :
    runTool none a = ([], "DLL not loaded")
    ∧ ∀ (q : String) (max : Nat) (case word regex path : Bool),
        search none q max case word regex path = ([], "DLL not loaded") :=
  ⟨rfl, fun _ _ _ _ _ _ => rfl⟩

/-- Claim C7: when the query call succeeds but materializes zero results,
the returned text is exactly `No results for: <original query>`, with no
header and no rows. -/
theorem zero_results_message (eng : EngineBehavior) (q : String) (max : Nat)
    (case word regex path : Bool) (hq : containsNul q = false)
    (hok : eng.queryOk = true) (hn : eng.numResults = 0) :
    (search (some eng) q max case word regex path).2 = "No results for: " ++ q := by
  rw [search]
  simp [hq, hok, hn]

theorem zero_results_message_witness :
    (search (some emptyEngine) "nothing" 50 false false false false).2
      = "No results for: " ++ "nothing" :=
  zero_results_message emptyEngine "nothing" 50 false false false false
    (by decide) rfl rfl

/-- Claim C10: the by-extension builder on the empty extensions string does
not fail: splitting `""` on commas yields the single empty entry, and the
built query is exactly `ext:`. -/
theorem ext_builder_empty_input :
    rustSplitComma "" = [""]
    ∧ extQuery "" = "ext:"
    ∧ everything_search_ext { extensions := "", keywords := none, max_results := none }
      = { q := "ext:", max := 50, matchCase := false, wholeWord := false,
          matchRegex := false, matchPath := false } :=
  ⟨rfl, rfl, by decide⟩

/-- Claim C8: a large-file request with no `min_size` and
`file_type = "video"` builds exactly `size:>100mb ext:mp4;avi;mkv;mov`;
the size expression defaults to `>100mb` when unspecified; the video,
audio and archive categories append their fixed extension sets; any other
file type appends nothing. -/
theorem large_query_default_and_categories :
    everything_search_large_query none (some "video")
      = "size:>100mb ext:mp4;avi;mkv;mov"
    ∧ (∀ ft : Option String,
        everything_search_large_query none ft
          = everything_search_large_query (some "100mb") ft)
    ∧ (∀ ms : Option String,
        everything_search_large_query ms (some "video")
          = ("size:>" ++ ms.getD "100mb") ++ " ext:mp4;avi;mkv;mov"
        ∧ everything_search_large_query ms (some "audio")
          = ("size:>" ++ ms.getD "100mb") ++ " ext:mp3;wav;flac"
        ∧ everything_search_large_query ms (some "archive")
          = ("size:>" ++ ms.getD "100mb") ++ " ext:zip;rar;7z;iso")
    ∧ (∀ (ms : Option String) (ft : String),
        rustToLowercase ft ≠ "video" → rustToLowercase ft ≠ "audio" →
        rustToLowercase ft ≠ "archive" →
        everything_search_large_query ms (some ft) = "size:>" ++ ms.getD "100mb") := by
  refine ⟨by decide, fun ft => rfl, fun ms => ?_, fun ms ft h1 h2 h3 => ?_⟩
  · refine ⟨?_, ?_, ?_⟩ <;> rw [everything_search_large_query] <;> rfl
  · rw [everything_search_large_query]
    simp only [h1, h2, h3, if_false]
    exact String.append_empty _

theorem large_query_default_and_categories_witness :
    everything_search_large_query none (some "txt") = "size:>" ++ Option.getD none "100mb"
    ∧ everything_search_large_query (some "2gb") (some "audio")
      = ("size:>" ++ Option.getD (some "2gb") "100mb") ++ " ext:mp3;wav;flac" :=
  ⟨large_query_default_and_categories.2.2.2 none "txt"
      (by decide) (by decide) (by decide),
   (large_query_default_and_categories.2.2.1 (some "2gb")).2.1⟩

/-- Claim C9: the large-file builder always prepends the `>` comparator:
the query is `size:>` followed by the caller's `min_size` verbatim
(`100mb` when absent), even when `min_size` itself already starts with a
comparison operator; and the file-type category is matched
case-insensitively via lowercasing. -/
theorem large_query_comparator_and_case :
    (∀ ms : String, everything_search_large_query (some ms) none = "size:>" ++ ms)
    ∧ everything_search_large_query (some ">1gb") none = "size:>>1gb"
    ∧ everything_search_large_query none none = "size:>100mb"
    ∧ (∀ (ms : Option String) (ft : String), rustToLowercase ft = "video" →
        everything_search_large_query ms (some ft)
          = ("size:>" ++ ms.getD "100mb") ++ " ext:mp4;avi;mkv;mov")
    ∧ everything_search_large_query none (some "ViDeO")
      = everything_search_large_query none (some "video") := by
  refine ⟨fun ms => rfl, by decide, rfl, fun ms ft h => ?_, by decide⟩
  rw [everything_search_large_query]
  simp only [h, if_true]

theorem large_query_comparator_and_case_witness :
    everything_search_large_query none (some "VIDEO")
      = ("size:>" ++ Option.getD none "100mb") ++ " ext:mp4;avi;mkv;mov" :=
  large_query_comparator_and_case.2.2.2.1 none "VIDEO" (by decide)

/-- Claim C5: the optional keyword of a builder leaves the base query
unchanged (no trailing separator) when absent or empty, is appended after
a single space when non-empty, and when the base is an OR set the set is
parenthesized first, producing `(term1 | term2) keyword`. -/
theorem keyword_augmentation :
    (∀ base : String, pushKeyword base none = base ∧ pushKeyword base (some "") = base)
    ∧ (∀ (base k : String), k ≠ "" → pushKeyword base (some k) = base ++ " " ++ k)
    ∧ (∀ exts : String,
        everything_search_ext_query exts none = extQuery exts
        ∧ everything_search_ext_query exts (some "") = extQuery exts)
    ∧ (∀ (exts k : String), k ≠ "" →
        everything_search_ext_query exts (some k) = "(" ++ extQuery exts ++ ") " ++ k)
    ∧ (∀ terms : String,
        everything_search_or_query terms none
          = joinSep " | " ((rustSplitComma terms).map rustTrim)
        ∧ everything_search_or_query terms (some "")
          = joinSep " | " ((rustSplitComma terms).map rustTrim))
    ∧ (∀ (terms f : String), f ≠ "" →
        everything_search_or_query terms (some f)
          = "(" ++ joinSep " | " ((rustSplitComma terms).map rustTrim) ++ ") " ++ f)
    ∧ everything_search_or_query "term1,term2" (some "keyword") = "(term1 | term2) keyword" := by
  refine ⟨fun base => ⟨rfl, rfl⟩, fun base k h => ?_, fun exts => ⟨rfl, rfl⟩,
    fun exts k h => ?_, fun terms => ⟨rfl, rfl⟩, fun terms f h => ?_, by decide⟩
  · rw [pushKeyword, filterNonEmpty, if_neg h]
  · rw [everything_search_ext_query, filterNonEmpty, if_neg h]
  · rw [everything_search_or_query, filterNonEmpty, if_neg h]

theorem keyword_augmentation_witness :
    pushKeyword "attrib:H" (some "secret") = "attrib:H" ++ " " ++ "secret"
    ∧ everything_search_ext_query "py" (some "draft")
      = "(" ++ extQuery "py" ++ ") " ++ "draft" :=
  ⟨keyword_augmentation.2.1 "attrib:H" "secret" (by decide),
   keyword_augmentation.2.2.2.1 "py" "draft" (by decide)⟩

/-- Claim C2: the by-extension builder splits its input on commas, trims
whitespace and then leading dots from each entry, emits `ext:<entry>` per
entry and joins them with `" | "` in input order; on `".PY, js ,TS"` it
yields exactly `ext:PY | ext:js | ext:TS`, case preserved. -/
theorem ext_builder_split_trim_join :
    extQuery ".PY, js ,TS" = "ext:PY | ext:js | ext:TS"
    ∧ ∀ es : List String, es ≠ [] → (∀ e ∈ es, ',' ∉ e.toList) →
        extQuery (joinSep "," es)
          = joinSep " | " (es.map (fun e => "ext:" ++ trimStartMatchesChar '.' (rustTrim e))) := by
  constructor
  · decide
  · intro es
    induction es with
    | nil => intro h _; exact absurd rfl h
    | cons e tail ih =>
      intro _ hcf
      have he : ',' ∉ e.toList := hcf e (List.mem_cons_self e tail)
      cases tail with
      | nil =>
        show extQuery (joinSep "," [e]) = _
        rw [joinSep, extQuery, rustSplitComma_single e he]
      | cons e2 t2 =>
        have hrest : ∀ x ∈ e2 :: t2, ',' ∉ x.toList :=
          fun x hx => hcf x (List.mem_cons_of_mem e hx)
        have hne : (rustSplitComma (joinSep "," (e2 :: t2))).map
            (fun x => "ext:" ++ trimStartMatchesChar '.' (rustTrim x)) ≠ [] := by
          intro hnil
          exact rustSplitComma_ne_nil (joinSep "," (e2 :: t2)) (by simpa using hnil)
        have step : extQuery (e ++ "," ++ joinSep "," (e2 :: t2))
            = ("ext:" ++ trimStartMatchesChar '.' (rustTrim e)) ++ " | "
              ++ extQuery (joinSep "," (e2 :: t2)) := by
          rw [extQuery, rustSplitComma_cons _ _ he, List.map_cons,
              joinSep_cons _ _ _ hne]
          rfl
        have hmain := ih (List.cons_ne_nil e2 t2) hrest
        rw [show joinSep "," (e :: e2 :: t2) = e ++ "," ++ joinSep "," (e2 :: t2) from rfl,
            step, hmain]
        exact (joinSep_cons " | " ("ext:" ++ trimStartMatchesChar '.' (rustTrim e))
          ((e2 :: t2).map (fun x => "ext:" ++ trimStartMatchesChar '.' (rustTrim x)))
          (by simp)).symm

theorem ext_builder_split_trim_join_witness :
    extQuery (joinSep "," [" .rs", "toml"])
      = joinSep " | " ([" .rs", "toml"].map
          (fun e => "ext:" ++ trimStartMatchesChar '.' (rustTrim e))) :=
  ext_builder_split_trim_join.2 [" .rs", "toml"] (by decide) (by decide)

/-- Claim C6: the loader tries the default search path before the fixed
fallback install path, the first success winning; it resolves every
required entry point by exact name, and a handle is produced only when
all of them resolve — a single missing symbol fails the whole load. -/
theorem loader_order_and_all_or_nothing :
    (∀ (env : LoadEnv) (l : NativeLib),
        env.openLib "Everything64.dll" = Except.ok l → EvDll.load env = resolveAll l)
    ∧ (∀ (env : LoadEnv) (err : String) (l : NativeLib),
        env.openLib "Everything64.dll" = Except.error err →
        env.openLib "C:\\Program Files\\Everything\\Everything64.dll" = Except.ok l →
        EvDll.load env = resolveAll l)
    ∧ (∀ (lib : NativeLib) (h : EvDll), resolveAll lib = Except.ok h →
        ∀ name ∈ requiredSymbols, (lib.sym name).isSome)
    ∧ (∀ lib : NativeLib, (∃ name ∈ requiredSymbols, lib.sym name = none) →
        ∀ h : EvDll, resolveAll lib ≠ Except.ok h) := by
  refine ⟨fun env l hl => ?_, fun env err l he hl => ?_, resolveAll_ok_sym,
    fun lib hmiss h hok => ?_⟩
  · simp only [EvDll.load, orElseLib, hl]
  · simp only [EvDll.load, orElseLib, he, hl]
  · obtain ⟨name, hmem, hnone⟩ := hmiss
    have hsome := resolveAll_ok_sym lib h hok name hmem
    rw [hnone] at hsome
    exact absurd hsome (by simp)

theorem loader_order_and_all_or_nothing_witness :
    EvDll.load goodEnv = resolveAll fullLib
    ∧ EvDll.load fallbackEnv = resolveAll fullLib
    ∧ (fullLib.sym "Everything_QueryW").isSome
    ∧ resolveAll missingLib ≠ Except.ok zeroDll :=
  ⟨loader_order_and_all_or_nothing.1 goodEnv fullLib rfl,
   loader_order_and_all_or_nothing.2.1 fallbackEnv "not found" fullLib rfl rfl,
   loader_order_and_all_or_nothing.2.2.1 fullLib zeroDll rfl
     "Everything_QueryW" (by decide),
   loader_order_and_all_or_nothing.2.2.2 missingLib
     ⟨"Everything_QueryW", by decide, rfl⟩ zeroDll⟩

end EvMcp
